import Mathlib

/-!
# stats/statsotel.go : the OpenTelemetry cache statistics handler

A shallow embedding of `src/stats/statsotel.go`.

The file is a thin adapter over three OpenTelemetry interfaces
(`metric.MeterProvider`, `metric.Meter`, `metric.Int64Counter`).  Their
implementations live in the metrics backend, so they are taken as values whose
methods are arbitrary functions over a backend state `σ`.  Every call the
adapter makes through one of these interfaces is appended to a call log kept in
the `World`, so that "what was requested" and "how many increments were
recorded" are observable.

Go features and how they are rendered:

* an interface value that may be `nil` (`error`, `metric.MeterProvider`,
  `metric.Int64Counter`) is an `Option`; calling a method on `none` panics;
* a call that may panic returns an `Outcome`;
* a method with a pointer receiver returns the receiver's pointee after the
  call next to its outcome and the world.
-/

set_option linter.unusedVariables false

namespace Stats

/-! ## Go runtime -/

/-- The value carried by a Go panic. -/
inductive PanicValue where
  /-- The runtime error raised by a method call through a nil interface. -/
  | nilDereference
  /-- Any other value, raised by code outside this file. -/
  | other (msg : String)
  deriving DecidableEq, Repr

/-- How a Go call ends: it returns a value or it panics. -/
inductive Outcome (α : Type) where
  | ret (a : α)
  | panic (v : PanicValue)
  deriving DecidableEq, Repr

/-- A non-nil value of the Go interface `error`.  The nil `error` is
`none : Option GoError`.  The field is the method `Error() string` of the
dynamic type: called, it returns the message or it panics.  A non-nil `error`
can panic there: a nil pointer `*T` stored in the interface is a non-nil
`error`, and a `T.Error` that reads through its receiver then dereferences
nil. -/
structure GoError where
  Error : Outcome String
  deriving DecidableEq, Repr

/-- Type `context.Context`; the only context this file builds is the background one. -/
inductive Context where
  | Background
  deriving DecidableEq, Repr

/-! ## The OpenTelemetry API used by the file -/

/-- Type `attribute.KeyValue`, for string-valued attributes. -/
structure KeyValue where
  Key : String
  Value : String
  deriving DecidableEq, Repr

/-- Function `attribute.String(k, v)`. -/
def attributeString (k v : String) : KeyValue := ⟨k, v⟩

/-- Type `metric.AddOption`: an option of one `Add` call.  `WithAttributes`
carries the attributes in the order they were passed; the keys passed in this
file are pairwise distinct, so none overrides another. -/
inductive AddOption where
  | WithAttributes (attributes : List KeyValue)
  deriving DecidableEq, Repr

/-- Type `metric.Int64CounterOption`: an option of an instrument request. -/
inductive Int64CounterOption where
  | WithDescription (desc : String)
  deriving DecidableEq, Repr

/-- Interface `metric.Int64Counter` (a non-nil value).  `Add` is the backend's:
it updates the backend state and returns normally, or panics. -/
structure Int64Counter (σ : Type) where
  Add : Context → Int → List AddOption → σ → Outcome Unit × σ

/-- Interface `metric.Meter` (a non-nil value).  `Int64Counter` returns the Go
pair `(metric.Int64Counter, error)`. -/
structure Meter (σ : Type) where
  Int64Counter : String → List Int64CounterOption → σ →
    (Option (Int64Counter σ) × Option GoError) × σ

/-- Interface `metric.MeterProvider` (a non-nil value). -/
structure MeterProvider (σ : Type) where
  Meter : String → σ → Meter σ × σ

/-- One call made through the OpenTelemetry interfaces. -/
inductive Call (σ : Type) where
  | Meter (mp : MeterProvider σ) (name : String)
  | Int64Counter (m : Meter σ) (name : String) (options : List Int64CounterOption)
  | Add (c : Int64Counter σ) (ctx : Context) (incr : Int) (options : List AddOption)

/-- Everything outside the reporter: the process-wide default meter provider
(what `otel.GetMeterProvider()` returns), the state owned by the metrics
backend, and the log of the interface calls made so far. -/
structure World (σ : Type) where
  globalMeterProvider : MeterProvider σ
  backend : σ
  calls : List (Call σ)

/-- Function `otel.GetMeterProvider()`. -/
def otel.GetMeterProvider {σ : Type} (w : World σ) : MeterProvider σ :=
  w.globalMeterProvider

/-- The call `mp.Meter(name)`, logged. -/
def callMeter {σ : Type} (mp : MeterProvider σ) (name : String) (w : World σ) :
    Meter σ × World σ :=
  let r := mp.Meter name w.backend
  (r.1, { w with backend := r.2, calls := w.calls ++ [Call.Meter mp name] })

/-- The call `m.Int64Counter(name, options...)`, logged. -/
def callInt64Counter {σ : Type} (m : Meter σ) (name : String)
    (options : List Int64CounterOption) (w : World σ) :
    (Option (Int64Counter σ) × Option GoError) × World σ :=
  let r := m.Int64Counter name options w.backend
  (r.1, { w with backend := r.2, calls := w.calls ++ [Call.Int64Counter m name options] })

/-- The call `c.Add(ctx, incr, options...)` through a possibly nil interface
value: a nil `c` panics before anything is called; otherwise the call is logged
and the backend decides the outcome. -/
def callAdd {σ : Type} (c : Option (Int64Counter σ)) (ctx : Context) (incr : Int)
    (options : List AddOption) (w : World σ) : Outcome Unit × World σ :=
  match c with
  | none => (Outcome.panic PanicValue.nilDereference, w)
  | some c =>
    let r := c.Add ctx incr options w.backend
    (r.1, { w with backend := r.2, calls := w.calls ++ [Call.Add c ctx incr options] })

/-! ## The types of statsotel.go (lines 12-28) -/

/-- Struct `OpenTelemetryOptions`.  The field `namespace` is written
`namespace_` because the word is reserved. -/
structure OpenTelemetryOptions (σ : Type) where
  namespace_ : String
  subsystem : String
  name : String
  help : String
  mp : Option (MeterProvider σ)

/-- The Go zero value of `OpenTelemetryOptions`. -/
def OpenTelemetryOptions.zero {σ : Type} : OpenTelemetryOptions σ :=
  { namespace_ := "", subsystem := "", name := "", help := "", mp := none }

/-- Type `OpenTelemetryOption`, a `func(*OpenTelemetryOptions)`: the update it
performs on the pointee. -/
abbrev OpenTelemetryOption (σ : Type) := OpenTelemetryOptions σ → OpenTelemetryOptions σ

/-- Struct `OpenTelemetry`: the embedded options, the cache name and the counter. -/
structure OpenTelemetry (σ : Type) where
  OpenTelemetryOptions : OpenTelemetryOptions σ
  cacheName : String
  counter : Option (Int64Counter σ)

/-! ## The option constructors (lines 30-58) -/

/-- Function `OTelWithNamespace`. -/
def OTelWithNamespace {σ : Type} (namespace_ : String) : OpenTelemetryOption σ :=
  fun o => { o with namespace_ := namespace_ }

/-- Function `OTelWithSubsystem`. -/
def OTelWithSubsystem {σ : Type} (subsystem : String) : OpenTelemetryOption σ :=
  fun o => { o with subsystem := subsystem }

/-- Function `OTelWithName`. -/
def OTelWithName {σ : Type} (name : String) : OpenTelemetryOption σ :=
  fun o => { o with name := name }

/-- Function `OTelWithHelp`. -/
def OTelWithHelp {σ : Type} (help : String) : OpenTelemetryOption σ :=
  fun o => { o with help := help }

/-- Function `OTelWithMeterProvider`. -/
def OTelWithMeterProvider {σ : Type} (mp : Option (MeterProvider σ)) : OpenTelemetryOption σ :=
  fun o => { o with mp := mp }

/-! ## The constructor (lines 60-82) -/

/-- Lines 61-67 of `NewOpenTelemetry`: the composite literal (fields it does not
name get their zero value), then every option applied to it in order. -/
def resolveOptions {σ : Type} (opts : List (OpenTelemetryOption σ)) (w : World σ) :
    OpenTelemetryOptions σ :=
  let o : OpenTelemetryOptions σ :=
    { namespace_ := ""
      subsystem := ""
      name := "cache_handle_total"
      help := ""
      mp := some (otel.GetMeterProvider w) }
  opts.foldl (fun o opt => opt o) o

/-- Function `NewOpenTelemetry`.  It returns the Go pair `(*OpenTelemetry, error)`,
or panics when the resolved provider is nil.  The returned struct literal names
only `counter`, so its other fields are zero values. -/
def NewOpenTelemetry {σ : Type} (cacheName : String) (opts : List (OpenTelemetryOption σ))
    (w : World σ) : Outcome (Option (OpenTelemetry σ) × Option GoError) × World σ :=
  let o := resolveOptions opts w
  match o.mp with
  | none => (Outcome.panic PanicValue.nilDereference, w)
  | some mp =>
    let m := callMeter mp "jetcache" w
    let r := callInt64Counter m.1 o.name [Int64CounterOption.WithDescription o.help] m.2
    match r.1.2 with
    | some err => (Outcome.ret (none, some err), r.2)
    | none =>
      (Outcome.ret
        (some { OpenTelemetryOptions := OpenTelemetryOptions.zero
                cacheName := ""
                counter := r.1.1 }, none), r.2)

/-! ## The report methods (lines 84-155)

Each takes the receiver's pointee `o` and the world, and returns the outcome,
the pointee after the call and the world after the call. -/

/-- Method `(*OpenTelemetry).IncrHit`. -/
def OpenTelemetry.IncrHit {σ : Type} (o : OpenTelemetry σ) (w : World σ) :
    Outcome Unit × OpenTelemetry σ × World σ :=
  let r := callAdd o.counter Context.Background 1
    [AddOption.WithAttributes
      [attributeString "cache_name" o.cacheName,
       attributeString "cache_type" "total",
       attributeString "method" "hit"]] w
  (r.1, o, r.2)

/-- Method `(*OpenTelemetry).IncrMiss`. -/
def OpenTelemetry.IncrMiss {σ : Type} (o : OpenTelemetry σ) (w : World σ) :
    Outcome Unit × OpenTelemetry σ × World σ :=
  let r := callAdd o.counter Context.Background 1
    [AddOption.WithAttributes
      [attributeString "cache_name" o.cacheName,
       attributeString "cache_type" "total",
       attributeString "method" "miss"]] w
  (r.1, o, r.2)

/-- Method `(*OpenTelemetry).IncrLocalHit`. -/
def OpenTelemetry.IncrLocalHit {σ : Type} (o : OpenTelemetry σ) (w : World σ) :
    Outcome Unit × OpenTelemetry σ × World σ :=
  let r := callAdd o.counter Context.Background 1
    [AddOption.WithAttributes
      [attributeString "cache_name" o.cacheName,
       attributeString "cache_type" "local",
       attributeString "method" "hit"]] w
  (r.1, o, r.2)

/-- Method `(*OpenTelemetry).IncrLocalMiss`. -/
def OpenTelemetry.IncrLocalMiss {σ : Type} (o : OpenTelemetry σ) (w : World σ) :
    Outcome Unit × OpenTelemetry σ × World σ :=
  let r := callAdd o.counter Context.Background 1
    [AddOption.WithAttributes
      [attributeString "cache_name" o.cacheName,
       attributeString "cache_type" "local",
       attributeString "method" "miss"]] w
  (r.1, o, r.2)

/-- Method `(*OpenTelemetry).IncrRemoteHit`. -/
def OpenTelemetry.IncrRemoteHit {σ : Type} (o : OpenTelemetry σ) (w : World σ) :
    Outcome Unit × OpenTelemetry σ × World σ :=
  let r := callAdd o.counter Context.Background 1
    [AddOption.WithAttributes
      [attributeString "cache_name" o.cacheName,
       attributeString "cache_type" "remote",
       attributeString "method" "hit"]] w
  (r.1, o, r.2)

/-- Method `(*OpenTelemetry).IncrRemoteMiss`. -/
def OpenTelemetry.IncrRemoteMiss {σ : Type} (o : OpenTelemetry σ) (w : World σ) :
    Outcome Unit × OpenTelemetry σ × World σ :=
  let r := callAdd o.counter Context.Background 1
    [AddOption.WithAttributes
      [attributeString "cache_name" o.cacheName,
       attributeString "cache_type" "remote",
       attributeString "method" "miss"]] w
  (r.1, o, r.2)

/-- Method `(*OpenTelemetry).IncrQuery`. -/
def OpenTelemetry.IncrQuery {σ : Type} (o : OpenTelemetry σ) (w : World σ) :
    Outcome Unit × OpenTelemetry σ × World σ :=
  let r := callAdd o.counter Context.Background 1
    [AddOption.WithAttributes
      [attributeString "cache_name" o.cacheName,
       attributeString "cache_type" "query",
       attributeString "method" "query"]] w
  (r.1, o, r.2)

/-- Method `(*OpenTelemetry).IncrQueryFail`.  The arguments of `Add` are
evaluated before `Add` is called, and `err.Error()` is among them: a nil `err`
panics there, and a panic inside `Error()` of a non-nil `err` ends the method
there as well.  Only when `Error()` returns is `Add` called. -/
def OpenTelemetry.IncrQueryFail {σ : Type} (o : OpenTelemetry σ) (err : Option GoError)
    (w : World σ) : Outcome Unit × OpenTelemetry σ × World σ :=
  match err with
  | none => (Outcome.panic PanicValue.nilDereference, o, w)
  | some e =>
    match e.Error with
    | Outcome.panic v => (Outcome.panic v, o, w)
    | Outcome.ret msg =>
      let r := callAdd o.counter Context.Background 1
        [AddOption.WithAttributes
          [attributeString "cache_name" o.cacheName,
           attributeString "cache_type" "query",
           attributeString "method" "queryFail",
           attributeString "err" msg]] w
      (r.1, o, r.2)

/-! ## Callers of the handler -/

/-- One call of a method of the `Handler` interface, which `*OpenTelemetry`
implements (line 10). -/
inductive ReportOp where
  | IncrHit
  | IncrMiss
  | IncrLocalHit
  | IncrLocalMiss
  | IncrRemoteHit
  | IncrRemoteMiss
  | IncrQuery
  | IncrQueryFail (err : Option GoError)
  deriving DecidableEq, Repr

/-- Dispatch of a handler call to the method it names. -/
def ReportOp.run {σ : Type} (op : ReportOp) (o : OpenTelemetry σ) (w : World σ) :
    Outcome Unit × OpenTelemetry σ × World σ :=
  match op with
  | .IncrHit => o.IncrHit w
  | .IncrMiss => o.IncrMiss w
  | .IncrLocalHit => o.IncrLocalHit w
  | .IncrLocalMiss => o.IncrLocalMiss w
  | .IncrRemoteHit => o.IncrRemoteHit w
  | .IncrRemoteMiss => o.IncrRemoteMiss w
  | .IncrQuery => o.IncrQuery w
  | .IncrQueryFail err => o.IncrQueryFail err w

/-- A caller that makes the report calls of `ops` one after the other on the
same receiver; as in Go, a panic ends the sequence. -/
def runReports {σ : Type} (ops : List ReportOp) (o : OpenTelemetry σ) (w : World σ) :
    Outcome Unit × OpenTelemetry σ × World σ :=
  match ops with
  | [] => (Outcome.ret (), o, w)
  | op :: rest =>
    match op.run o w with
    | (Outcome.ret _, o1, w1) => runReports rest o1 w1
    | (Outcome.panic v, o1, w1) => (Outcome.panic v, o1, w1)

/-- A call of one of the five option constructors, with its argument. -/
inductive OptionCall (σ : Type) where
  | Namespace (namespace_ : String)
  | Subsystem (subsystem : String)
  | Name (name : String)
  | Help (help : String)
  | MeterProvider (mp : Option (MeterProvider σ))

/-- The option value the constructor call returns. -/
def OptionCall.option {σ : Type} : OptionCall σ → OpenTelemetryOption σ
  | .Namespace s => OTelWithNamespace s
  | .Subsystem s => OTelWithSubsystem s
  | .Name s => OTelWithName s
  | .Help s => OTelWithHelp s
  | .MeterProvider mp => OTelWithMeterProvider mp

/-! ## Test doubles -/

/-- A counter whose `Add` sums the deltas it receives into the backend state. -/
def sumCounter : Int64Counter Int :=
  { Add := fun _ incr _ s => (Outcome.ret (), s + incr) }

/-- A meter that hands out `sumCounter` for every request. -/
def sumMeter : Meter Int :=
  { Int64Counter := fun _ _ s => ((some sumCounter, none), s) }

/-- A meter that rejects every request with the error "invalid instrument name". -/
def rejectingMeter : Meter Int :=
  { Int64Counter := fun _ _ s => ((none, some ⟨Outcome.ret "invalid instrument name"⟩), s) }

/-- A provider whose every meter is `sumMeter`. -/
def sumProvider : MeterProvider Int :=
  { Meter := fun _ s => (sumMeter, s) }

/-- A provider whose every meter is `rejectingMeter`. -/
def rejectingProvider : MeterProvider Int :=
  { Meter := fun _ s => (rejectingMeter, s) }

/-- A fresh process whose default provider is `sumProvider`. -/
def sumWorld : World Int :=
  { globalMeterProvider := sumProvider, backend := 0, calls := [] }

/-- A fresh process whose default provider is `rejectingProvider`. -/
def rejectingWorld : World Int :=
  { globalMeterProvider := rejectingProvider, backend := 0, calls := [] }

/-- The attribute lists of the `Add` calls of a log, in call order. -/
def addAttributes {σ : Type} : List (Call σ) → List (List AddOption)
  | [] => []
  | Call.Add _ _ _ options :: rest => options :: addAttributes rest
  | _ :: rest => addAttributes rest

/-- The number of `Add` calls in a log. -/
def addCount {σ : Type} (calls : List (Call σ)) : Nat :=
  (addAttributes calls).length

/-- The three fields of the resolved options that `NewOpenTelemetry` reads. -/
def sameRequest {σ : Type} (a b : OpenTelemetryOptions σ) : Prop :=
  a.name = b.name ∧ a.help = b.help ∧ a.mp = b.mp

/-- A non-nil `error` holding a nil pointer of a type whose `Error()` reads
through its receiver: `err != nil` holds and `err.Error()` panics with a nil
dereference. -/
def typedNilError : GoError :=
  { Error := Outcome.panic PanicValue.nilDereference }

/-- Last-wins, written from the specification: the argument of the last option
of the list that sets the metric name, if any does. -/
def specLastName {σ : Type} (opts : List (OptionCall σ)) : Option String :=
  (opts.filterMap (fun oc => match oc with
    | .Name s => some s
    | _ => none)).getLast?

/-- Last-wins, written from the specification: the argument of the last option
of the list that sets the help text, if any does. -/
def specLastHelp {σ : Type} (opts : List (OptionCall σ)) : Option String :=
  (opts.filterMap (fun oc => match oc with
    | .Help s => some s
    | _ => none)).getLast?

/-- Last-wins, written from the specification: the argument of the last option
of the list that sets the meter provider, if any does. -/
def specLastProvider {σ : Type} (opts : List (OptionCall σ)) :
    Option (Option (MeterProvider σ)) :=
  (opts.filterMap (fun oc => match oc with
    | .MeterProvider mp => some mp
    | _ => none)).getLast?

/-! ## Helper lemmas -/

/-- No report call changes the receiver. -/
theorem run_receiver {σ : Type} (op : ReportOp) (o : OpenTelemetry σ) (w : World σ) :
    (op.run o w).2.1 = o := by
  cases op with
  | IncrQueryFail err =>
    cases err with
    | none => rfl
    | some e =>
      obtain ⟨res⟩ := e
      cases res <;> rfl
  | _ => rfl

/-- The attribute lists of a concatenated log. -/
theorem addAttributes_append {σ : Type} (xs ys : List (Call σ)) :
    addAttributes (xs ++ ys) = addAttributes xs ++ addAttributes ys := by
  induction xs with
  | nil => rfl
  | cons x xs ih =>
    cases x with
    | Add c ctx incr options => simp [addAttributes, ih]
    | Meter mp name => simpa [addAttributes] using ih
    | Int64Counter m name options => simpa [addAttributes] using ih

/-- What one report call does to the call log, whatever the receiver: nothing,
or one `Add` call of delta 1 on the receiver's counter whose first label is the
receiver's cache name.  The default provider is never touched. -/
theorem run_calls {σ : Type} (op : ReportOp) (o : OpenTelemetry σ) (w : World σ) :
    (op.run o w).2.2.globalMeterProvider = w.globalMeterProvider ∧
    ((op.run o w).2.2.calls = w.calls ∨
      ∃ c labels, o.counter = some c ∧
        (op.run o w).2.2.calls = w.calls ++
          [Call.Add c Context.Background 1
            [AddOption.WithAttributes (⟨"cache_name", o.cacheName⟩ :: labels)]]) := by
  obtain ⟨os, n, counter⟩ := o
  cases counter with
  | none =>
    cases op with
    | IncrQueryFail err =>
      cases err with
      | none => exact ⟨rfl, Or.inl rfl⟩
      | some e =>
        obtain ⟨res⟩ := e
        cases res <;> exact ⟨rfl, Or.inl rfl⟩
    | _ => exact ⟨rfl, Or.inl rfl⟩
  | some c =>
    cases op with
    | IncrQueryFail err =>
      cases err with
      | none => exact ⟨rfl, Or.inl rfl⟩
      | some e =>
        obtain ⟨res⟩ := e
        cases res with
        | panic v => exact ⟨rfl, Or.inl rfl⟩
        | ret msg => exact ⟨rfl, Or.inr ⟨c, _, rfl, rfl⟩⟩
    | _ => exact ⟨rfl, Or.inr ⟨c, _, rfl, rfl⟩⟩

/-- The reporter `NewOpenTelemetry` returns never carries the cache name it was
given: its `cacheName` is the empty string. -/
theorem newOpenTelemetry_cacheName {σ : Type} (cacheName : String)
    (opts : List (OpenTelemetryOption σ)) (w : World σ) (r : OpenTelemetry σ)
    (e : Option GoError) (h : (NewOpenTelemetry cacheName opts w).1 = Outcome.ret (some r, e)) :
    r.cacheName = "" := by
  dsimp only [NewOpenTelemetry] at h
  split at h
  · simp at h
  · split at h
    · simp at h
    · simp only [Outcome.ret.injEq, Prod.mk.injEq, Option.some.injEq] at h
      rw [← h.1]

/-- Applying the same constructor-built options to two option structs that agree
on name, help and provider gives structs that still agree on them. -/
theorem foldl_sameRequest {σ : Type} (opts : List (OptionCall σ))
    (a b : OpenTelemetryOptions σ) (h : sameRequest a b) :
    sameRequest ((opts.map OptionCall.option).foldl (fun o opt => opt o) a)
      ((opts.map OptionCall.option).foldl (fun o opt => opt o) b) := by
  induction opts generalizing a b with
  | nil => exact h
  | cons x xs ih =>
    simp only [List.map_cons, List.foldl_cons]
    apply ih
    obtain ⟨h1, h2, h3⟩ := h
    cases x <;>
      simp [sameRequest, OptionCall.option, OTelWithNamespace, OTelWithSubsystem, OTelWithName,
        OTelWithHelp, OTelWithMeterProvider, h1, h2, h3]

/-- The constructor reads nothing of the resolved options but name, help and
provider. -/
theorem newOpenTelemetry_congr {σ : Type} (cacheName : String)
    (opts1 opts2 : List (OpenTelemetryOption σ)) (w : World σ)
    (h : sameRequest (resolveOptions opts1 w) (resolveOptions opts2 w)) :
    NewOpenTelemetry cacheName opts1 w = NewOpenTelemetry cacheName opts2 w := by
  obtain ⟨h1, h2, h3⟩ := h
  simp only [NewOpenTelemetry, h1, h2, h3]

/-- The resolved name, help and provider are last-wins over the defaults. -/
theorem resolveOptions_last_wins {σ : Type} (opts : List (OptionCall σ)) (w : World σ) :
    (resolveOptions (opts.map OptionCall.option) w).name
      = (specLastName opts).getD "cache_handle_total" ∧
    (resolveOptions (opts.map OptionCall.option) w).help = (specLastHelp opts).getD "" ∧
    (resolveOptions (opts.map OptionCall.option) w).mp
      = (specLastProvider opts).getD (some w.globalMeterProvider) := by
  induction opts using List.reverseRecOn with
  | nil => exact ⟨rfl, rfl, rfl⟩
  | append_singleton xs x ih =>
    obtain ⟨h1, h2, h3⟩ := ih
    simp only [resolveOptions] at h1 h2 h3
    cases x <;>
      simp [resolveOptions, List.foldl_append, specLastName, specLastHelp, specLastProvider,
        List.filterMap_append, OptionCall.option, OTelWithNamespace, OTelWithSubsystem,
        OTelWithName, OTelWithHelp, OTelWithMeterProvider, h1, h2, h3]

/-- What the constructor does once the options are resolved to a non-nil
provider: one `Meter` call, one `Int64Counter` call. -/
theorem newOpenTelemetry_calls {σ : Type} (cacheName : String)
    (opts : List (OpenTelemetryOption σ)) (w : World σ) (p : MeterProvider σ)
    (h : (resolveOptions opts w).mp = some p) :
    (NewOpenTelemetry cacheName opts w).2.calls = w.calls ++
      [Call.Meter p "jetcache",
       Call.Int64Counter (p.Meter "jetcache" w.backend).1 (resolveOptions opts w).name
         [Int64CounterOption.WithDescription (resolveOptions opts w).help]] := by
  simp only [NewOpenTelemetry, h]
  split <;> simp [callInt64Counter, callMeter]

/-! ## The claims -/

/-- C10, refuted at two inputs.  A nil pointer stored in a non-nil `error` whose
`Error()` dereferences it is a non-nil error, yet IncrQueryFail panics on it
before the counter is called and no `Add` is logged; and IncrHit on the zero
value of `OpenTelemetry`, whose counter is nil, panics without any `Add`. -/
theorem nonnil_error_can_panic_before_add :
    (some typedNilError : Option GoError) ≠ none ∧
    (OpenTelemetry.mk OpenTelemetryOptions.zero "" (some sumCounter)).IncrQueryFail
        (some typedNilError) sumWorld
      = (Outcome.panic PanicValue.nilDereference,
          OpenTelemetry.mk OpenTelemetryOptions.zero "" (some sumCounter), sumWorld) ∧
    addCount ((OpenTelemetry.mk OpenTelemetryOptions.zero "" (some sumCounter)).IncrQueryFail
        (some typedNilError) sumWorld).2.2.calls = 0 ∧
    (OpenTelemetry.mk OpenTelemetryOptions.zero "" none).IncrHit sumWorld
      = (Outcome.panic PanicValue.nilDereference,
          OpenTelemetry.mk OpenTelemetryOptions.zero "" none, sumWorld) ∧
    addCount ((OpenTelemetry.mk OpenTelemetryOptions.zero "" none).IncrHit
        sumWorld).2.2.calls = 0 := by
  refine ⟨by simp, rfl, rfl, rfl, rfl⟩

/-- C10 as amended: IncrQueryFail evaluates `err.Error()` before the counter is
called.  With a nil error it panics with a nil dereference, and with a non-nil
error whose `Error()` panics it panics, on a reporter whose counter is non-nil,
with that same value; in both cases the receiver and the world (call log,
backend state) are as before, so no increment is recorded.  Every other report
call (an error whose `Error()`
returns, or one of the seven other operations) on a reporter whose counter is
non-nil reaches `Add` exactly once. -/
theorem incrQueryFail_panics_before_add {σ : Type} (o : OpenTelemetry σ)
    (os : OpenTelemetryOptions σ) (n : String) (c : Int64Counter σ) (w : World σ) :
    o.IncrQueryFail none w = (Outcome.panic PanicValue.nilDereference, o, w) ∧
    (∀ v : PanicValue,
      (OpenTelemetry.mk os n (some c)).IncrQueryFail (some ⟨Outcome.panic v⟩) w
        = (Outcome.panic v, OpenTelemetry.mk os n (some c), w)) ∧
    ∀ op : ReportOp,
      (∀ err, op = ReportOp.IncrQueryFail err → ∃ msg, err = some ⟨Outcome.ret msg⟩) →
      (∃ labels, (op.run (OpenTelemetry.mk os n (some c)) w).2.2.calls = w.calls ++
        [Call.Add c Context.Background 1 [AddOption.WithAttributes labels]]) ∧
      addCount (op.run (OpenTelemetry.mk os n (some c)) w).2.2.calls = addCount w.calls + 1 := by
  refine ⟨rfl, fun v => rfl, ?_⟩
  intro op hop
  have key : ∃ labels, (op.run (OpenTelemetry.mk os n (some c)) w).2.2.calls = w.calls ++
      [Call.Add c Context.Background 1 [AddOption.WithAttributes labels]] := by
    cases op with
    | IncrQueryFail err =>
      obtain ⟨msg, hmsg⟩ := hop err rfl
      subst hmsg
      exact ⟨_, rfl⟩
    | _ => exact ⟨_, rfl⟩
  refine ⟨key, ?_⟩
  obtain ⟨labels, h⟩ := key
  rw [h]
  simp [addCount, addAttributes_append, addAttributes]

/-- Witness of the amended C10 on the summing counter: a nil error and a
panicking `Error()` both panic and leave the world alone, while IncrHit and
IncrQueryFail with the message "timeout" each reach `Add` once. -/
theorem incrQueryFail_panics_before_add_witness :
    (OpenTelemetry.mk OpenTelemetryOptions.zero "" (some sumCounter)).IncrQueryFail none sumWorld
      = (Outcome.panic PanicValue.nilDereference,
          OpenTelemetry.mk OpenTelemetryOptions.zero "" (some sumCounter), sumWorld) ∧
    (OpenTelemetry.mk OpenTelemetryOptions.zero "" (some sumCounter)).IncrQueryFail
        (some ⟨Outcome.panic (PanicValue.other "no message")⟩) sumWorld
      = (Outcome.panic (PanicValue.other "no message"),
          OpenTelemetry.mk OpenTelemetryOptions.zero "" (some sumCounter), sumWorld) ∧
    addCount (ReportOp.IncrHit.run
      (OpenTelemetry.mk OpenTelemetryOptions.zero "" (some sumCounter)) sumWorld).2.2.calls
      = addCount sumWorld.calls + 1 ∧
    addCount ((ReportOp.IncrQueryFail (some ⟨Outcome.ret "timeout"⟩)).run
      (OpenTelemetry.mk OpenTelemetryOptions.zero "" (some sumCounter)) sumWorld).2.2.calls
      = addCount sumWorld.calls + 1 :=
  ⟨(incrQueryFail_panics_before_add
      (OpenTelemetry.mk OpenTelemetryOptions.zero "" (some sumCounter))
      OpenTelemetryOptions.zero "" sumCounter sumWorld).1,
   (incrQueryFail_panics_before_add
      (OpenTelemetry.mk OpenTelemetryOptions.zero "" (some sumCounter))
      OpenTelemetryOptions.zero "" sumCounter sumWorld).2.1 (PanicValue.other "no message"),
   ((incrQueryFail_panics_before_add
      (OpenTelemetry.mk OpenTelemetryOptions.zero "" (some sumCounter))
      OpenTelemetryOptions.zero "" sumCounter sumWorld).2.2 ReportOp.IncrHit
        (fun err h => ReportOp.noConfusion h)).2,
   ((incrQueryFail_panics_before_add
      (OpenTelemetry.mk OpenTelemetryOptions.zero "" (some sumCounter))
      OpenTelemetryOptions.zero "" sumCounter sumWorld).2.2
        (ReportOp.IncrQueryFail (some ⟨Outcome.ret "timeout"⟩))
        (fun err h => ⟨"timeout", (ReportOp.IncrQueryFail.inj h).symm⟩)).2⟩

/-- C8: no report call changes the receiver (its embedded options, cache name
and counter) or the default provider, and over any sequence of report calls the
receiver stays the same and everything appended to the call log is an `Add`
call of delta 1 on the receiver's one counter with the receiver's one cache
name as cache_name label. -/
theorem report_leaves_reporter_unchanged {σ : Type} (ops : List ReportOp)
    (o : OpenTelemetry σ) (w : World σ) :
    (∀ op : ReportOp, (op.run o w).2.1 = o ∧
      (op.run o w).2.2.globalMeterProvider = w.globalMeterProvider) ∧
    (runReports ops o w).2.1 = o ∧
    (runReports ops o w).2.2.globalMeterProvider = w.globalMeterProvider ∧
    ∃ added, (runReports ops o w).2.2.calls = w.calls ++ added ∧
      ∀ call ∈ added, ∃ c labels, o.counter = some c ∧
        call = Call.Add c Context.Background 1
          [AddOption.WithAttributes (⟨"cache_name", o.cacheName⟩ :: labels)] := by
  refine ⟨fun op => ⟨run_receiver op o w, (run_calls op o w).1⟩, ?_⟩
  induction ops generalizing w with
  | nil => exact ⟨rfl, rfl, [], by simp [runReports], by simp⟩
  | cons op rest ih =>
    have hrec := run_receiver op o w
    obtain ⟨hg, hc⟩ := run_calls op o w
    rcases hrun : op.run o w with ⟨out, o1, w1⟩
    rw [hrun] at hrec hg hc
    simp only at hrec hg hc
    subst hrec
    have hstep : ∃ added, w1.calls = w.calls ++ added ∧
        ∀ call ∈ added, ∃ c labels, o1.counter = some c ∧
          call = Call.Add c Context.Background 1
            [AddOption.WithAttributes (⟨"cache_name", o1.cacheName⟩ :: labels)] := by
      rcases hc with hc | ⟨c, labels, hcn, hc⟩
      · exact ⟨[], by simp [hc], by simp⟩
      · refine ⟨_, hc, ?_⟩
        intro call hcall
        simp only [List.mem_singleton] at hcall
        exact ⟨c, labels, hcn, hcall⟩
    cases out with
    | panic v =>
      have hres : runReports (op :: rest) o1 w = (Outcome.panic v, o1, w1) := by
        simp only [runReports, hrun]
      rw [hres]
      exact ⟨rfl, hg, hstep⟩
    | ret u =>
      have hres : runReports (op :: rest) o1 w = runReports rest o1 w1 := by
        simp only [runReports, hrun]
      rw [hres]
      obtain ⟨h1, h2, added2, h3, h4⟩ := ih w1
      obtain ⟨added1, h5, h6⟩ := hstep
      refine ⟨h1, h2.trans hg, added1 ++ added2, ?_, ?_⟩
      · rw [h3, h5, List.append_assoc]
      · intro call hcall
        rcases List.mem_append.mp hcall with hm | hm
        · exact h6 call hm
        · exact h4 call hm

/-- C2, evaluated at the failing input: `NewOpenTelemetry("users")` over a
working provider returns a reporter whose `cacheName` is the empty string, and
IncrHit on that reporter attaches cache_name = "" where the claim asks for
cache_name = "users". -/
theorem newOpenTelemetry_drops_cacheName :
    (NewOpenTelemetry "users" [] sumWorld).1 =
      Outcome.ret (some (OpenTelemetry.mk OpenTelemetryOptions.zero "" (some sumCounter)),
        none) ∧
    addAttributes ((OpenTelemetry.mk OpenTelemetryOptions.zero "" (some sumCounter)).IncrHit
        (NewOpenTelemetry "users" [] sumWorld).2).2.2.calls =
      [[AddOption.WithAttributes
        [⟨"cache_name", ""⟩, ⟨"cache_type", "total"⟩, ⟨"method", "hit"⟩]]] ∧
    addAttributes ((OpenTelemetry.mk OpenTelemetryOptions.zero "" (some sumCounter)).IncrHit
        (NewOpenTelemetry "users" [] sumWorld).2).2.2.calls ≠
      [[AddOption.WithAttributes
        [⟨"cache_name", "users"⟩, ⟨"cache_type", "total"⟩, ⟨"method", "hit"⟩]]] := by
  refine ⟨rfl, rfl, ?_⟩
  have h : addAttributes
      ((OpenTelemetry.mk OpenTelemetryOptions.zero "" (some sumCounter)).IncrHit
        (NewOpenTelemetry "users" [] sumWorld).2).2.2.calls =
      [[AddOption.WithAttributes
        [⟨"cache_name", ""⟩, ⟨"cache_type", "total"⟩, ⟨"method", "hit"⟩]]] := rfl
  rw [h]
  decide

/-- C3: when the resolved provider is `mp` and its "jetcache" meter is `m`, an
error `e` returned by `m.Int64Counter` makes `NewOpenTelemetry` return exactly
`e` with a nil reporter, and a counter `c` returned with a nil error makes it
return a nil error with a reporter whose counter is `c`. -/
theorem newOpenTelemetry_propagates_error {σ : Type} (cacheName : String)
    (opts : List (OpenTelemetryOption σ)) (w : World σ) (mp : MeterProvider σ)
    (m : Meter σ) (b1 b2 : σ) (c : Option (Int64Counter σ))
    (hmp : (resolveOptions opts w).mp = some mp)
    (hm : mp.Meter "jetcache" w.backend = (m, b1)) :
    (∀ e : GoError,
      m.Int64Counter (resolveOptions opts w).name
          [Int64CounterOption.WithDescription (resolveOptions opts w).help] b1
        = ((c, some e), b2) →
      (NewOpenTelemetry cacheName opts w).1 = Outcome.ret (none, some e)) ∧
    (m.Int64Counter (resolveOptions opts w).name
          [Int64CounterOption.WithDescription (resolveOptions opts w).help] b1
        = ((c, none), b2) →
      ∃ r : OpenTelemetry σ,
        (NewOpenTelemetry cacheName opts w).1 = Outcome.ret (some r, none) ∧ r.counter = c) := by
  constructor
  · intro e he
    simp [NewOpenTelemetry, hmp, callMeter, callInt64Counter, hm, he]
  · intro hc
    refine ⟨OpenTelemetry.mk OpenTelemetryOptions.zero "" c, ?_, rfl⟩
    simp [NewOpenTelemetry, hmp, callMeter, callInt64Counter, hm, hc]

/-- Witness of C3: over the rejecting provider the constructor returns the
meter's error and no reporter; over the summing provider it returns a reporter
holding the meter's counter and no error. -/
theorem newOpenTelemetry_propagates_error_witness :
    (NewOpenTelemetry "users" [] rejectingWorld).1 =
      Outcome.ret (none, some ⟨Outcome.ret "invalid instrument name"⟩) ∧
    ∃ r : OpenTelemetry Int,
      (NewOpenTelemetry "users" [] sumWorld).1 = Outcome.ret (some r, none) ∧
        r.counter = some sumCounter :=
  ⟨(newOpenTelemetry_propagates_error "users" [] rejectingWorld rejectingProvider
      rejectingMeter 0 0 none rfl rfl).1 ⟨Outcome.ret "invalid instrument name"⟩ rfl,
   (newOpenTelemetry_propagates_error "users" [] sumWorld sumProvider
      sumMeter 0 0 (some sumCounter) rfl rfl).2 rfl⟩

/-- C4: with an empty option list the constructor makes exactly two interface
calls: `Meter("jetcache")` on the process-wide default provider, then one
`Int64Counter` request on that meter, named "cache_handle_total". -/
theorem newOpenTelemetry_default_request {σ : Type} (cacheName : String) (w : World σ) :
    (NewOpenTelemetry cacheName [] w).2.calls = w.calls ++
      [Call.Meter (otel.GetMeterProvider w) "jetcache",
       Call.Int64Counter ((otel.GetMeterProvider w).Meter "jetcache" w.backend).1
         "cache_handle_total" [Int64CounterOption.WithDescription ""]] :=
  newOpenTelemetry_calls cacheName [] w (otel.GetMeterProvider w) rfl

/-- C5: for every list of option-constructor calls, the resolved name, help and
provider are each the argument of the last option of the list that sets the
field, or the default ("cache_handle_total", empty help, the default provider)
when none does; and the one counter request goes to the "jetcache" meter of the
resolved provider, named by the resolved name and described by the resolved
help. -/
theorem newOpenTelemetry_last_option_wins {σ : Type} (cacheName : String)
    (opts : List (OptionCall σ)) (w : World σ) (p : MeterProvider σ)
    (hp : (specLastProvider opts).getD (some (otel.GetMeterProvider w)) = some p) :
    (resolveOptions (opts.map OptionCall.option) w).name
      = (specLastName opts).getD "cache_handle_total" ∧
    (resolveOptions (opts.map OptionCall.option) w).help = (specLastHelp opts).getD "" ∧
    (resolveOptions (opts.map OptionCall.option) w).mp
      = (specLastProvider opts).getD (some (otel.GetMeterProvider w)) ∧
    (NewOpenTelemetry cacheName (opts.map OptionCall.option) w).2.calls = w.calls ++
      [Call.Meter p "jetcache",
       Call.Int64Counter (p.Meter "jetcache" w.backend).1
         ((specLastName opts).getD "cache_handle_total")
         [Int64CounterOption.WithDescription ((specLastHelp opts).getD "")]] := by
  obtain ⟨h1, h2, h3⟩ := resolveOptions_last_wins opts w
  refine ⟨h1, h2, h3, ?_⟩
  have hmp : (resolveOptions (opts.map OptionCall.option) w).mp = some p := by
    rw [h3]; exact hp
  rw [newOpenTelemetry_calls cacheName _ w p hmp, h1, h2]

/-- Witness of C5: `[OTelWithName("a"), OTelWithName("custom_metric")]` over the
default provider requests an instrument named "custom_metric". -/
theorem newOpenTelemetry_last_option_wins_witness :
    (NewOpenTelemetry "users"
        [OTelWithName "a", OTelWithName "custom_metric"] sumWorld).2.calls =
      [Call.Meter sumProvider "jetcache",
       Call.Int64Counter sumMeter "custom_metric" [Int64CounterOption.WithDescription ""]] :=
  (newOpenTelemetry_last_option_wins "users"
    [OptionCall.Name "a", OptionCall.Name "custom_metric"] sumWorld sumProvider rfl).2.2.2

/-- C9: inserting `OTelWithNamespace(ns)` or `OTelWithSubsystem(sub)` anywhere
in a list of option-constructor calls changes nothing of what the constructor
does or returns: the same outcome (the same reporter, hence the same labels on
every later report call, or the same error), the same backend state and the
same call log (the same provider, meter name, instrument name and
description). -/
theorem namespace_subsystem_unobservable {σ : Type} (cacheName ns sub : String)
    (xs ys : List (OptionCall σ)) (w : World σ) :
    NewOpenTelemetry cacheName ((xs ++ OptionCall.Namespace ns :: ys).map OptionCall.option) w
      = NewOpenTelemetry cacheName ((xs ++ ys).map OptionCall.option) w ∧
    NewOpenTelemetry cacheName ((xs ++ OptionCall.Subsystem sub :: ys).map OptionCall.option) w
      = NewOpenTelemetry cacheName ((xs ++ ys).map OptionCall.option) w := by
  constructor <;>
  · apply newOpenTelemetry_congr
    simp only [resolveOptions, List.map_append, List.map_cons, List.foldl_append,
      List.foldl_cons]
    apply foldl_sameRequest
    exact ⟨rfl, rfl, rfl⟩

end Stats
